import Mathlib

/-!
Verification of the ink-crop-pro image cropper core (src/pages/Index.tsx).

The embedding models the pixel filter pipeline (`applyConvolution`,
`applyImageFilters`), the viewport transform mutations (`resetImageState`,
wheel zoom, slider zoom, pan, arrow-key nudge), the crop-size parsing
(`applyCropSize`, `handlePresetClick` with a model of JavaScript
`parseFloat`), the crop-rectangle geometry of `drawCanvas` and
`getCroppedCanvas`, and the clarity easing tick.

Real-number arithmetic of the source (JavaScript doubles) is modelled with
exact rationals.  `Uint8ClampedArray` stores clamp to [0, 255] and round
half to even; that behaviour is modelled by `u8Store`.  `Math.round` rounds
half toward positive infinity; modelled by `jsRound`.
-/

namespace InkCrop

/-- `ImageData`: width, height and the RGBA byte buffer (row-major,
4 bytes per pixel), as handed to `applyImageFilters`. -/
structure ImageData where
  width : ℕ
  height : ℕ
  data : List ℕ
deriving DecidableEq, Repr

/-- Round half to even, the rounding applied when a JavaScript number is
stored into a `Uint8ClampedArray` element. -/
def roundHalfEven (q : ℚ) : ℤ :=
  let f := ⌊q⌋
  let r := q - f
  if r < 1/2 then f
  else if 1/2 < r then f + 1
  else if f % 2 = 0 then f else f + 1

/-- Storing a number into a `Uint8ClampedArray` element: clamp to
[0, 255], then round half to even. -/
def u8Store (q : ℚ) : ℕ :=
  (roundHalfEven (min 255 (max 0 q))).toNat

/-- One convolution tap sum for channel `c` of pixel `(x, y)`:
the loop body of `applyConvolution` (source lines 123-136).  Kernel taps
whose source pixel lies outside the raster bounds are skipped. -/
def convSum (data : List ℕ) (w h : ℕ) (kernel : List ℚ) (x y c : ℕ) : ℚ :=
  let side := Nat.sqrt kernel.length
  let halfSide := side / 2
  ((List.range side).map (fun (ky : ℕ) =>
    ((List.range side).map (fun (kx : ℕ) =>
      let px : ℤ := (x : ℤ) + kx - halfSide
      let py : ℤ := (y : ℤ) + ky - halfSide
      if 0 ≤ px ∧ px < w ∧ 0 ≤ py ∧ py < h then
        kernel.getD (ky * side + kx) 0 *
          (data.getD ((py.toNat * w + px.toNat) * 4 + c) 0 : ℚ)
      else 0)).sum)).sum

/-- `applyConvolution` (source lines 115-148): builds a fresh output buffer
of the same length, writes for every pixel the clamped tap sums into the
RGB channels and 255 into alpha, then copies the output back over the
input buffer.  Entries past the last full pixel row stay 0, like the
freshly allocated `Uint8ClampedArray`. -/
def applyConvolution (data : List ℕ) (w h : ℕ) (kernel : List ℚ) : List ℕ :=
  (List.range data.length).map (fun i =>
    if i / 4 < w * h then
      if i % 4 = 3 then 255
      else u8Store (min 255 (max 0 (convSum data w h kernel ((i / 4) % w) ((i / 4) / w) (i % 4))))
    else 0)

/-- The 3×3 clarity kernel chosen at source lines 159-161: sharpen for
`clarity ≥ 0`, soften for `clarity < 0`. -/
def clarityKernel (clarity : ℚ) : List ℚ :=
  if 0 ≤ clarity then
    [0, -1, 0, -1, 5 + clarity / 20, -1, 0, -1, 0]
  else
    [0, 1, 0, 1, 3 + clarity / 50, 1, 0, 1, 0]

/-- The contrast factor of source line 169. -/
def contrastFactor (contrast : ℚ) : ℚ :=
  259 * (contrast + 255) / (255 * (259 - contrast))

/-- The per-channel body of the brightness/contrast loop (source lines
171-181): the contrast result is written into the `Uint8ClampedArray`
(clamping and rounding it), then brightness is added to the stored byte,
clamped with `Math.min`/`Math.max`, and stored again. -/
def remapChannel (factor b : ℚ) (v : ℕ) : ℕ :=
  let afterContrast := u8Store (factor * ((v : ℚ) - 128) + 128)
  u8Store (min 255 (max 0 ((afterContrast : ℚ) + b)))

/-- The brightness/contrast stage of `applyImageFilters` (source lines
167-182): skipped entirely when both values are 0, otherwise every RGB
byte is remapped and alpha bytes are left untouched. -/
def remapData (data : List ℕ) (b c : ℚ) : List ℕ :=
  if b ≠ 0 ∨ c ≠ 0 then
    data.mapIdx (fun i v => if i % 4 = 3 then v else remapChannel (contrastFactor c) b v)
  else data

/-- `applyImageFilters` (source lines 150-185): copy the source buffer,
run the clarity convolution when `clarity ≠ 0`, then the
brightness/contrast remap when either is non-zero. -/
def applyImageFilters (src : ImageData) (clarity b c : ℚ) : ImageData :=
  let d1 := if clarity ≠ 0
    then applyConvolution src.data src.width src.height (clarityKernel clarity)
    else src.data
  ⟨src.width, src.height, remapData d1 b c⟩

/-- `ImageState` (source lines 14-21): the viewport transform plus drag
bookkeeping. -/
structure ImageState where
  scale : ℚ
  offsetX : ℚ
  offsetY : ℚ
  dragging : Bool
  lastX : ℚ
  lastY : ℚ
deriving DecidableEq, Repr

/-- `resetImageState` (source lines 91-113): fit/fill scale and centering
offsets.  `fitMode = true` models `"fit"`. -/
def resetImageState (cw ch iw ih : ℚ) (fitMode : Bool) : ImageState :=
  let scale := if fitMode then min (cw / iw) (ch / ih) else max (cw / iw) (ch / ih)
  { scale := scale
    offsetX := (cw - iw * scale) / 2
    offsetY := (ch - ih * scale) / 2
    dragging := false
    lastX := 0
    lastY := 0 }

/-- The transform update of `handleWheel` (source lines 405-421), with the
zoom factor `Math.exp(-deltaY * 0.0012)` abstracted as an arbitrary
rational parameter and `(mx, my)` the anchor canvas point. -/
def handleWheel (st : ImageState) (mx my zoomFactor : ℚ) : ImageState :=
  let beforeX := (mx - st.offsetX) / st.scale
  let beforeY := (my - st.offsetY) / st.scale
  let newScale := max (1/20) (min 5 (st.scale * zoomFactor))
  { st with
      scale := newScale
      offsetX := mx - beforeX * newScale
      offsetY := my - beforeY * newScale }

/-- `handleZoomChange` (source lines 449-467): absolute zoom from the
slider, anchored at the canvas center; the incoming value is used as the
new scale without any clamping in the handler itself. -/
def handleZoomChange (st : ImageState) (cw ch newScale : ℚ) : ImageState :=
  let cx := cw / 2
  let cy := ch / 2
  let beforeX := (cx - st.offsetX) / st.scale
  let beforeY := (cy - st.offsetY) / st.scale
  { st with
      scale := newScale
      offsetX := cx - beforeX * newScale
      offsetY := cy - beforeY * newScale }

/-- The offset update of `handleMouseMove` (source lines 375-381): pan by
the mouse delta. -/
def panBy (st : ImageState) (dx dy : ℚ) : ImageState :=
  { st with offsetX := st.offsetX + dx, offsetY := st.offsetY + dy, lastX := st.lastX + dx, lastY := st.lastY + dy }

/-- Arrow-key directions of `handleKeyDown`. -/
inductive ArrowKey | up | down | left | right
deriving DecidableEq, Repr

/-- The nudge of `handleKeyDown` (source lines 424-442): step of 2 canvas
pixels on one axis. -/
def handleKeyDown (st : ImageState) (key : ArrowKey) : ImageState :=
  match key with
  | .up => { st with offsetY := st.offsetY - 2 }
  | .down => { st with offsetY := st.offsetY + 2 }
  | .left => { st with offsetX := st.offsetX - 2 }
  | .right => { st with offsetX := st.offsetX + 2 }

/-- One tick of the clarity easing loop (source lines 596-603): returns
the new `clarity` value and whether the animation keeps running. -/
def clarityTick (current targetClarity : ℚ) : ℚ × Bool :=
  let diff := targetClarity - current
  if |diff| < 1/2 then (targetClarity, false)
  else (current + diff * (1/5), true)

/-- `n` easing ticks starting from `current` toward `targetClarity`. -/
def tickN (targetClarity current : ℚ) : ℕ → ℚ
  | 0 => current
  | n + 1 => (clarityTick (tickN targetClarity current n) targetClarity).1

/-- JavaScript `Math.round`: round half toward positive infinity. -/
def jsRound (q : ℚ) : ℤ := ⌊q + 1/2⌋

/-- The crop-rectangle origin drawn by `drawCanvas` (source lines
225-226): exact halves, no rounding. -/
def previewCropOrigin (canvasW canvasH cropPxW cropPxH : ℚ) : ℚ × ℚ :=
  ((canvasW - cropPxW) / 2, (canvasH - cropPxH) / 2)

/-- The crop-rectangle origin used by `getCroppedCanvas` (source lines
515-516): the halves are passed through `Math.round`. -/
def exportCropOrigin (canvasW canvasH cropPxW cropPxH : ℤ) : ℤ × ℤ :=
  (jsRound (((canvasW : ℚ) - cropPxW) / 2), jsRound (((canvasH : ℚ) - cropPxH) / 2))

/-- `mmToIn` (source line 77). -/
def mmToIn (mm : ℚ) : ℚ := mm / 25.4

/-- ASCII decimal digit test, as in JavaScript `parseFloat`. -/
def isDigit (ch : Char) : Bool := '0' ≤ ch && ch ≤ '9'

/-- Value of a digit string read most-significant first. -/
def digitsToNat (l : List Char) : ℕ :=
  l.foldl (fun acc ch => 10 * acc + (ch.toNat - 48)) 0

/-- The unsigned part of JavaScript `parseFloat`: leading digits, an
optional decimal point with more digits, everything after the number is
ignored; `none` models `NaN` (no digit found at all). -/
def parseUnsigned (s : List Char) : Option ℚ :=
  let intPart := s.takeWhile isDigit
  let s2 := s.dropWhile isDigit
  let fracPart := match s2 with
    | '.' :: rest => rest.takeWhile isDigit
    | _ => []
  if intPart = [] ∧ fracPart = [] then none
  else some ((digitsToNat intPart : ℚ) + (digitsToNat fracPart : ℚ) / 10 ^ fracPart.length)

/-- Model of JavaScript `parseFloat` on the input strings the crop-size
handlers receive: optional spaces, optional sign, then an unsigned
decimal; `none` models `NaN`. -/
def parseFloat (s : List Char) : Option ℚ :=
  let s1 := s.dropWhile (fun ch => ch = ' ')
  match s1 with
  | '-' :: rest => (parseUnsigned rest).map (fun q => -q)
  | '+' :: rest => parseUnsigned rest
  | _ => parseUnsigned s1

/-- JavaScript `x || d` for `x` a parse result: `NaN` (`none`) and `0` are
falsy and fall back to the literal default `d`; every other value,
negative ones included, is kept. -/
def jsOrDefault (p : Option ℚ) (d : ℚ) : ℚ :=
  match p with
  | none => d
  | some q => if q = 0 then d else q

/-- `applyCropSize` (source lines 485-490): `parseFloat(input) || 1.13`
and `parseFloat(input) || 1.37`; the previous crop size is not consulted. -/
def applyCropSize (wInput hInput : List Char) : ℚ × ℚ :=
  (jsOrDefault (parseFloat wInput) 1.13, jsOrDefault (parseFloat hInput) 1.37)

/-- Whether the input ends in the two given characters, modelling
`val.endsWith` of source lines 494-495. -/
def endsWith2 (s : List Char) (a b : Char) : Bool :=
  s.drop (s.length - 2) == [a, b]

/-- `parseValue` inside `handlePresetClick` (source lines 493-497):
`mm`-suffixed values are converted to inches, everything else is passed to
`parseFloat` directly; `none` models `NaN`. -/
def parseValue (val : List Char) : Option ℚ :=
  if endsWith2 val 'm' 'm' then (parseFloat val).map (fun q => mmToIn q)
  else parseFloat val

/-- `handlePresetClick` (source lines 492-505): both values are parsed and
stored unconditionally — a failed parse stores `NaN` (`none`). -/
def handlePresetClick (w h : List Char) : Option ℚ × Option ℚ :=
  (parseValue w, parseValue h)

/-- The two buffers live in `applyImageFilters`: the caller's
`sourceImageData` and the freshly allocated copy that every write
targets.  `applyImageFiltersRun` returns the final contents of both. -/
structure FilterSession where
  sourceImageData : ImageData
  result : ImageData
deriving DecidableEq, Repr

/-- `applyImageFilters` step by step as heap updates: line 151 allocates
`imgData` as a copy of the source bytes; `applyConvolution` (line 163) and
the remap loop (lines 171-181) write only into that copy; the source
buffer is never written. -/
def applyImageFiltersRun (src : ImageData) (clarity b c : ℚ) : FilterSession :=
  let imgData : ImageData := ⟨src.width, src.height, src.data⟩
  let imgData1 :=
    if clarity ≠ 0 then
      ⟨imgData.width, imgData.height,
        applyConvolution imgData.data imgData.width imgData.height (clarityKernel clarity)⟩
    else imgData
  let imgData2 : ImageData := ⟨imgData1.width, imgData1.height, remapData imgData1.data b c⟩
  ⟨src, imgData2⟩

/-- The per-channel contrast/brightness formula asserted by the spec:
`clamp(factor*(channel - 128) + 128 + brightness, 0, 255)` with no
clamping or rounding between the contrast and the brightness step. -/
def claimedChannel (b c : ℚ) (v : ℕ) : ℚ :=
  min 255 (max 0 (contrastFactor c * ((v : ℚ) - 128) + 128 + b))

/-- The per-channel contrast/brightness formula the code actually
implements: the contrast result passes through a `Uint8ClampedArray`
store (clamp to [0, 255] and round half to even) before brightness is
added; both stages are skipped when both parameters are 0. -/
def amendedChannel (b c : ℚ) (v : ℕ) : ℕ :=
  if b = 0 ∧ c = 0 then v
  else u8Store (min 255 (max 0 ((u8Store (contrastFactor c * ((v : ℚ) - 128) + 128) : ℚ) + b)))

/- Helper lemmas shared by the claim theorems. -/

theorem sqrt_nine : Nat.sqrt 9 = 3 := by
  rw [show (9:ℕ) = 3*3 from rfl]
  exact Nat.sqrt_eq 3

theorem roundHalfEven_intCast (z : ℤ) : roundHalfEven (z : ℚ) = z := by
  simp [roundHalfEven]

theorem u8Store_natCast (n : ℕ) (h : n ≤ 255) : u8Store (n : ℚ) = n := by
  have h0 : (0 : ℚ) ≤ (n : ℚ) := by positivity
  have h255 : (n : ℚ) ≤ 255 := by exact_mod_cast h
  have hz := roundHalfEven_intCast (n : ℤ)
  simp only [u8Store, max_eq_right h0, min_eq_right h255]
  rw [show ((n : ℚ)) = ((n : ℤ) : ℚ) by push_cast; ring, hz]
  simp

theorem getD_replicate (x d : ℕ) (n i : ℕ) (h : i < n) :
    (List.replicate n x).getD i d = x := by
  rw [List.getD_eq_getElem _ _ (by simpa using h)]
  exact List.getElem_replicate _ _

theorem getD_mapIdx (l : List ℕ) (f : ℕ → ℕ → ℕ) (i : ℕ) (d : ℕ) (h : i < l.length) :
    (l.mapIdx f).getD i d = f i (l.getD i d) := by
  rw [List.getD_eq_getElem _ _ (by simpa [List.length_mapIdx] using h),
    List.getD_eq_getElem _ _ h]
  simpa using List.get_mapIdx l f i h

theorem sub_two_jsRound_iff (a b : ℤ) :
    a - 2 * jsRound (((a : ℚ) - b) / 2) = b ↔ (a - b) % 2 = 0 := by
  rcases Int.even_or_odd (a - b) with ⟨k, hk⟩ | ⟨k, hk⟩
  · have hq : ((a : ℚ) - b) / 2 + 1/2 = (k : ℚ) + 1/2 := by
      have hc : ((a : ℚ) - b) = ((a - b : ℤ) : ℚ) := by push_cast; ring
      rw [hc, hk]; push_cast; ring
    have hfl : jsRound (((a : ℚ) - b) / 2) = k := by
      rw [jsRound, hq, Int.floor_int_add]
      norm_num
    rw [hfl]
    constructor
    · intro _; omega
    · intro _; omega
  · have hq : ((a : ℚ) - b) / 2 + 1/2 = ((k + 1 : ℤ) : ℚ) := by
      have hc : ((a : ℚ) - b) = ((a - b : ℤ) : ℚ) := by push_cast; ring
      rw [hc, hk]; push_cast; ring
    have hfl : jsRound (((a : ℚ) - b) / 2) = k + 1 := by
      rw [jsRound, hq, Int.floor_intCast]
    rw [hfl]
    constructor
    · intro h; omega
    · intro h; omega

/-- C1: with clarity = 0, brightness = 0 and contrast = 0 the filter
pipeline returns the raster byte-for-byte unchanged: the clarity
convolution is skipped and the contrast/brightness remap stage is
skipped. -/
theorem filter_zero_is_identity (src : ImageData) :
    applyImageFilters src 0 0 0 = src := by
  cases src with
  | mk w h d => simp [applyImageFilters, remapData]

/-- C2: wheel zoom preserves the image-space point under the anchor: for
any state with scale in the valid range [0.05, 5] and any zoom factor,
`(anchor - newOffset) / newScale = (anchor - offset) / scale` on both
axes. -/
theorem handleWheel_preserves_anchor (st : ImageState) (mx my f : ℚ)
    (h : 1/20 ≤ st.scale) (h5 : st.scale ≤ 5) :
    (mx - (handleWheel st mx my f).offsetX) / (handleWheel st mx my f).scale
      = (mx - st.offsetX) / st.scale ∧
    (my - (handleWheel st mx my f).offsetY) / (handleWheel st mx my f).scale
      = (my - st.offsetY) / st.scale := by
  have hs : st.scale ≠ 0 := by intro h0; rw [h0] at h; norm_num at h
  have hle : (1/20 : ℚ) ≤ max (1/20) (min 5 (st.scale * f)) := le_max_left _ _
  have hns : max (1/20) (min 5 (st.scale * f)) ≠ 0 := by
    intro h0; rw [h0] at hle; norm_num at hle
  simp only [handleWheel]
  constructor <;> field_simp <;> ring

/-- C2 witness: concrete instance of the anchor-preservation theorem at
scale 1, offset (3, 4), anchor (7, 9), factor 2. -/
theorem handleWheel_preserves_anchor_witness :
    (1/20 : ℚ) ≤ 1 ∧ (1 : ℚ) ≤ 5 ∧
    ((7 - (handleWheel ⟨1, 3, 4, false, 0, 0⟩ 7 9 2).offsetX)
        / (handleWheel ⟨1, 3, 4, false, 0, 0⟩ 7 9 2).scale = (7 - 3) / 1 ∧
      (9 - (handleWheel ⟨1, 3, 4, false, 0, 0⟩ 7 9 2).offsetY)
        / (handleWheel ⟨1, 3, 4, false, 0, 0⟩ 7 9 2).scale = (9 - 4) / 1) :=
  ⟨by norm_num, by norm_num,
    handleWheel_preserves_anchor ⟨1, 3, 4, false, 0, 0⟩ 7 9 2 (by norm_num) (by norm_num)⟩

/-- C3 counterexample: `resetImageState` does not clamp: a 100000×100000
image on a 600×900 canvas in fit mode yields scale = 0.006, below the
claimed lower bound 0.05, so the invariant does not hold on every
mutation. -/
theorem resetImageState_scale_below_min :
    (resetImageState 600 900 100000 100000 true).scale < 1/20 := by
  norm_num [resetImageState]

/-- C3 amended: wheel zoom always clamps the scale into [0.05, 5]; pan
and the arrow-key nudge leave the scale unchanged; the slider zoom stores
the incoming value without clamping (it relies on the slider bounds); the
fit/fill reset does not clamp at all. -/
theorem scale_clamp_per_mutation :
    (∀ (st : ImageState) (mx my f : ℚ),
      1/20 ≤ (handleWheel st mx my f).scale ∧ (handleWheel st mx my f).scale ≤ 5) ∧
    (∀ (st : ImageState) (dx dy : ℚ), (panBy st dx dy).scale = st.scale) ∧
    (∀ (st : ImageState) (k : ArrowKey), (handleKeyDown st k).scale = st.scale) ∧
    (∀ (st : ImageState) (cw ch v : ℚ), (handleZoomChange st cw ch v).scale = v) := by
  refine ⟨fun st mx my f => ⟨le_max_left _ _, ?_⟩, fun st dx dy => rfl,
    fun st k => ?_, fun st cw ch v => rfl⟩
  · exact max_le (by norm_num) (min_le_left _ _)
  · cases k <;> rfl

/-- C4 counterexample: the sharpen kernel at clarity = 40 has weight sum
1 + 40/20 = 3, not 1, so a uniform gray raster is changed: the 1×1 raster
with channels 10 becomes 70 (only the center tap, weight 7, is in
bounds). -/
theorem clarity_forty_uniform_not_fixed :
    applyImageFilters ⟨1, 1, [10, 10, 10, 255]⟩ 40 0 0 ≠ ⟨1, 1, [10, 10, 10, 255]⟩ := by
  have h : applyImageFilters ⟨1, 1, [10, 10, 10, 255]⟩ 40 0 0 = ⟨1, 1, [70, 70, 70, 255]⟩ := by
    norm_num [applyImageFilters, remapData, applyConvolution, convSum, clarityKernel,
      sqrt_nine, List.range_succ, u8Store, roundHalfEven, min_def, max_def, Int.toNat_ofNat]
    rfl
  rw [h]
  intro hEq
  have h0 := congrArg (fun r => r.data.getD 0 0) hEq
  norm_num at h0

/-- C4 amended: at clarity = 40 an interior channel of a uniform raster
is multiplied by the kernel weight sum 3 (and clamped to 255): for the
3×3 uniform raster with channel value v ≤ 85, the center pixel's red
channel of the filtered raster is exactly 3·v, so the raster is unchanged
only for v = 0. -/
theorem clarity_forty_uniform_triples_center (v : ℕ) (hv : v ≤ 85) :
    (applyImageFilters ⟨3, 3, List.replicate 36 v⟩ 40 0 0).data.getD 16 0 = 3 * v := by
  have hcs : convSum (List.replicate 36 v) 3 3 (clarityKernel 40) 1 1 0 = 3 * (v : ℚ) := by
    norm_num [convSum, clarityKernel, sqrt_nine, List.range_succ, getD_replicate]
    ring
  have h3 : (3 * v : ℕ) ≤ 255 := by omega
  have hmax : (0 : ℚ) ≤ 3 * (v : ℚ) := by positivity
  have hmin : 3 * (v : ℚ) ≤ 255 := by
    have hc : (v : ℚ) ≤ 85 := by exact_mod_cast hv
    linarith
  norm_num [applyImageFilters, remapData, applyConvolution, List.getD_eq_getElem,
    List.getElem_map, List.getElem_range, hcs, max_eq_right hmax, min_eq_right hmin]
  rw [show (3 * (v:ℚ)) = ((3 * v : ℕ) : ℚ) by push_cast; ring]
  rw [u8Store_natCast _ h3]

/-- C4 witness: the amended theorem at v = 10: the center channel of the
uniform-10 3×3 raster becomes 30. -/
theorem clarity_forty_uniform_triples_center_witness :
    (10 : ℕ) ≤ 85 ∧
    (applyImageFilters ⟨3, 3, List.replicate 36 10⟩ 40 0 0).data.getD 16 0 = 3 * 10 :=
  ⟨by norm_num, clarity_forty_uniform_triples_center 10 (by norm_num)⟩

/-- C5 counterexample: the claimed formula applies no clamping between
the contrast and brightness steps, but the code stores the contrast
result into a `Uint8ClampedArray` first: on a pixel with channel 255 at
contrast 100 and brightness -100 the code yields byte 155, while the
claimed formula yields 255. -/
theorem remap_claimed_formula_fails :
    ((applyImageFilters ⟨1, 1, [255, 255, 255, 255]⟩ 0 (-100) 100).data.getD 0 0 : ℚ)
      ≠ claimedChannel (-100) 100 255 := by
  have hcode : (applyImageFilters ⟨1, 1, [255, 255, 255, 255]⟩ 0 (-100) 100).data.getD 0 0
      = 155 := by
    simp only [applyImageFilters, remapData]
    norm_num
    norm_num [remapChannel, contrastFactor, u8Store, roundHalfEven, min_def, max_def,
      show Int.toNat 255 = 255 from rfl]
    rfl
  have hclaim : claimedChannel (-100) 100 255 = 255 := by
    norm_num [claimedChannel, contrastFactor, min_def, max_def]
  rw [hcode, hclaim]
  norm_num

/-- C5 amended: with clarity 0 and parameters in [-100, 100], every
non-alpha output byte equals the per-channel formula in which the
contrast result is clamped to [0, 255] and rounded half to even by the
`Uint8ClampedArray` store before brightness is added and clamped; the
whole remap stage is skipped when both parameters are 0 (and with
contrast 0 the contrast step is the identity because its factor is 1). -/
theorem remap_channel_amended (src : ImageData) (b c : ℚ)
    (hb1 : -100 ≤ b) (hb2 : b ≤ 100) (hc1 : -100 ≤ c) (hc2 : c ≤ 100)
    (i : ℕ) (hi : i < src.data.length) (ha : i % 4 ≠ 3) :
    (applyImageFilters src 0 b c).data.getD i 0 = amendedChannel b c (src.data.getD i 0) := by
  by_cases hbc : b = 0 ∧ c = 0
  · simp [applyImageFilters, remapData, amendedChannel, hbc, hbc.1, hbc.2]
  · have hor : b ≠ 0 ∨ c ≠ 0 := by tauto
    simp only [applyImageFilters, remapData, amendedChannel, if_pos hor, if_neg hbc, ne_eq,
      not_true_eq_false, if_false]
    rw [getD_mapIdx _ _ _ _ hi]
    simp [ha, remapChannel]

/-- C5 witness: the amended per-channel formula at brightness 10,
contrast 50, on the first channel (value 100) of a one-pixel raster. -/
theorem remap_channel_amended_witness :
    ((-100 : ℚ) ≤ 10 ∧ (10 : ℚ) ≤ 100 ∧ (-100 : ℚ) ≤ 50 ∧ (50 : ℚ) ≤ 100 ∧
      (0 : ℕ) < (⟨1, 1, [100, 100, 100, 255]⟩ : ImageData).data.length ∧ (0 : ℕ) % 4 ≠ 3) ∧
    (applyImageFilters ⟨1, 1, [100, 100, 100, 255]⟩ 0 10 50).data.getD 0 0
      = amendedChannel 10 50 100 :=
  ⟨⟨by norm_num, by norm_num, by norm_num, by norm_num, by decide, by decide⟩,
    remap_channel_amended ⟨1, 1, [100, 100, 100, 255]⟩ 10 50
      (by norm_num) (by norm_num) (by norm_num) (by norm_num) 0 (by decide) (by decide)⟩

/-- C6 counterexample: `applyCropSize` does not reject a parsed value
≤ 0: the input "-1" (with height "2") is applied as is, setting the crop
width to the invalid value -1 instead of retaining the previous valid
crop size. -/
theorem applyCropSize_accepts_negative :
    applyCropSize ['-', '1'] ['2'] = (-1, 2) ∧ (-1 : ℚ) ≤ 0 := by
  constructor
  · simp [applyCropSize, jsOrDefault, parseFloat, parseUnsigned, isDigit, digitsToNat]
  · norm_num

/-- C6 amended: an unparsable or zero width input makes `applyCropSize`
fall back to the hard-coded default 1.13 (not the previous value); any
other parsed value, negative ones included, is applied as is; a preset
whose value does not parse stores `NaN` (`none`) into the crop size via
`handlePresetClick`; no branch throws. -/
theorem crop_size_fallback_behaviour :
    (∀ w h : List Char, parseFloat w = none → (applyCropSize w h).1 = 1.13) ∧
    (∀ w h : List Char, parseFloat w = some 0 → (applyCropSize w h).1 = 1.13) ∧
    (∀ (w h : List Char) (q : ℚ), parseFloat w = some q → q ≠ 0 → (applyCropSize w h).1 = q) ∧
    (∀ w h : List Char, parseValue w = none → (handlePresetClick w h).1 = none) := by
  refine ⟨fun w h hw => ?_, fun w h hw => ?_, fun w h q hw hq => ?_, fun w h hw => ?_⟩
  · simp [applyCropSize, jsOrDefault, hw]
  · simp [applyCropSize, jsOrDefault, hw]
  · simp [applyCropSize, jsOrDefault, hw, hq]
  · simp [handlePresetClick, hw]

/-- C6 witness: the unparsable input "a" falls back to the default width
1.13. -/
theorem crop_size_fallback_behaviour_witness :
    parseFloat ['a'] = none ∧ (applyCropSize ['a'] ['2']).1 = 1.13 :=
  ⟨by simp [parseFloat, parseUnsigned, isDigit],
    crop_size_fallback_behaviour.1 ['a'] ['2']
      (by simp [parseFloat, parseUnsigned, isDigit])⟩

/-- C7: `resetImageState` picks min of the axis ratios in fit mode and
max in fill mode, and the offsets center the image exactly:
`imageDim * scale + 2 * offset = canvasDim` on each axis. -/
theorem resetImageState_fit_fill (cw ch iw ih : ℚ) (fit : Bool)
    (hw : 0 < iw) (hh : 0 < ih) :
    (resetImageState cw ch iw ih fit).scale
        = (if fit then min (cw / iw) (ch / ih) else max (cw / iw) (ch / ih)) ∧
    iw * (resetImageState cw ch iw ih fit).scale
        + 2 * (resetImageState cw ch iw ih fit).offsetX = cw ∧
    ih * (resetImageState cw ch iw ih fit).scale
        + 2 * (resetImageState cw ch iw ih fit).offsetY = ch ∧
    (resetImageState cw ch iw ih fit).offsetX
        = (cw - iw * (resetImageState cw ch iw ih fit).scale) / 2 ∧
    (resetImageState cw ch iw ih fit).offsetY
        = (ch - ih * (resetImageState cw ch iw ih fit).scale) / 2 := by
  refine ⟨rfl, ?_, ?_, rfl, rfl⟩ <;> simp only [resetImageState] <;> ring

/-- C7 witness: the spec scenario: a 1000×1000 image on a 600×900 canvas
in fit mode yields scale 0.6 = 3/5, offsetX 0 and offsetY 150. -/
theorem resetImageState_fit_fill_witness :
    (0 : ℚ) < 1000 ∧
    (resetImageState 600 900 1000 1000 true).scale = 3/5 ∧
    (resetImageState 600 900 1000 1000 true).offsetX = 0 ∧
    (resetImageState 600 900 1000 1000 true).offsetY = 150 := by
  obtain ⟨h1, h2, h3, h4, h5⟩ :=
    resetImageState_fit_fill 600 900 1000 1000 true (by norm_num) (by norm_num)
  have hs : (resetImageState 600 900 1000 1000 true).scale = 3/5 := by
    rw [h1]; norm_num [min_def]
  refine ⟨by norm_num, hs, ?_, ?_⟩
  · rw [h4, hs]; norm_num
  · rw [h5, hs]; norm_num

/-- C8 counterexample: the export renderer's crop origin is rounded, so
exact centering fails on odd differences: with canvas width 601 and crop
width 100, `canvasW - 2*x = 99 ≠ 100`. -/
theorem exportCropOrigin_off_center :
    (601 : ℤ) - 2 * (exportCropOrigin 601 900 100 100).1 ≠ 100 := by
  norm_num [exportCropOrigin, jsRound]

/-- C8 amended: the preview overlay origin of `drawCanvas` satisfies
exact centering for all inputs, while the export origin of
`getCroppedCanvas` satisfies it exactly when the difference between
canvas and crop dimension is even (it is off by one pixel when the
difference is odd). -/
theorem crop_centering_amended :
    (∀ cw ch cpw cph : ℚ,
      cw - 2 * (previewCropOrigin cw ch cpw cph).1 = cpw ∧
      ch - 2 * (previewCropOrigin cw ch cpw cph).2 = cph) ∧
    (∀ cw ch cpw cph : ℤ,
      (cw - 2 * (exportCropOrigin cw ch cpw cph).1 = cpw ↔ (cw - cpw) % 2 = 0) ∧
      (ch - 2 * (exportCropOrigin cw ch cpw cph).2 = cph ↔ (ch - cph) % 2 = 0)) := by
  constructor
  · intro cw ch cpw cph
    constructor <;> simp only [previewCropOrigin] <;> ring
  · intro cw ch cpw cph
    exact ⟨sub_two_jsRound_iff cw cpw, sub_two_jsRound_iff ch cph⟩

/-- C9: one easing tick moves `current` by a fifth of the remaining
difference, except that within 0.5 of the target it snaps exactly to the
target and stops; from 0 toward 50 one tick gives 10, the 22nd tick snaps
exactly to 50 and stops the loop. -/
theorem clarity_easing_spec :
    (∀ current targetClarity : ℚ,
      clarityTick current targetClarity =
        if |targetClarity - current| < 1/2 then (targetClarity, false)
        else (current + (targetClarity - current) * 0.2, true)) ∧
    clarityTick 0 50 = (10, true) ∧
    clarityTick (tickN 50 0 21) 50 = (50, false) ∧
    tickN 50 0 22 = 50 := by
  refine ⟨fun current targetClarity => ?_, ?_, ?_, ?_⟩
  · rw [show (0.2 : ℚ) = 1/5 by norm_num]
    rfl
  · norm_num [clarityTick, abs_lt]
  · norm_num [tickN, clarityTick, abs_lt]
  · norm_num [tickN, clarityTick, abs_lt]

/-- C10: the filter pipeline never mutates its input: running
`applyImageFilters` as heap updates on the source buffer and the freshly
allocated copy leaves the source raster equal to what was passed in, and
the returned raster is the pure pipeline of the source. -/
theorem applyImageFilters_preserves_source (src : ImageData) (clarity b c : ℚ) :
    (applyImageFiltersRun src clarity b c).sourceImageData = src ∧
    (applyImageFiltersRun src clarity b c).result = applyImageFilters src clarity b c := by
  constructor
  · rfl
  · by_cases hcl : clarity ≠ 0 <;> simp [applyImageFiltersRun, applyImageFilters, hcl]

end InkCrop
